import Mathlib

/-!
Shallow embedding of `mapviz_plugins/src/pose_publisher_plugin.cpp`
(class `PosePublisherPlugin`), together with models of the external
collaborators it calls into (the Qt combo box, the tf quaternion helper
and the ROS publisher hand-off).  The theorems below settle the frozen
claims about this plugin.
-/

set_option linter.unusedVariables false

/-- Model of Qt's `QPointF`: a 2-D point with real coordinates
(`double` in the source; modelled over ℝ). -/
structure QPointF where
  x : ℝ
  y : ℝ

namespace geometry_msgs

/-- `geometry_msgs::Point` (only x, y, z are used by the plugin). -/
structure Point where
  x : ℝ
  y : ℝ
  z : ℝ

/-- `geometry_msgs::Quaternion` (also stands for `tf::Quaternion`, whose
x, y, z, w components `tf::quaternionTFToMsg` copies over verbatim). -/
structure Quaternion where
  x : ℝ
  y : ℝ
  z : ℝ
  w : ℝ

/-- `std_msgs::Header` as used here: frame id and stamp.  Time is
modelled as a real number. -/
structure Header where
  frame_id : String
  stamp : ℝ

/-- The `pose` part of `geometry_msgs::PoseWithCovariance`. -/
structure Pose where
  position : Point
  orientation : Quaternion

/-- `geometry_msgs::PoseWithCovariance`; a default-constructed message
has an all-zero covariance and the plugin never writes it. -/
structure PoseWithCovariance where
  pose : Pose
  covariance : List ℝ

/-- `geometry_msgs::PoseWithCovarianceStamped`. -/
structure PoseWithCovarianceStamped where
  header : Header
  pose : PoseWithCovariance

end geometry_msgs

/-- Models `tf::createQuaternionFromYaw` (i.e. `setRPY(0, 0, yaw)`): the
unit quaternion for a rotation of `yaw` radians about the vertical
(z) axis, `(x, y, z, w) = (0, 0, sin(yaw/2), cos(yaw/2))`. -/
noncomputable def createQuaternionFromYaw (yaw : ℝ) : geometry_msgs.Quaternion :=
  { x := 0, y := 0, z := Real.sin (yaw / 2), w := Real.cos (yaw / 2) }

/-- The C library's two-argument arctangent `atan2(y, x)`, modelled as
the principal argument of the complex number `x + y·i` (both return the
angle of `(x, y)` in `(-π, π]` with `atan2(0, 0) = 0`). -/
noncomputable def atan2 (y x : ℝ) : ℝ :=
  Complex.arg ⟨x, y⟩

/-- `Qt::MouseButton` (the buttons the plugin distinguishes). -/
inductive MouseButton where
  | left
  | right
  | other
deriving DecidableEq

/-- The mutable state of `PosePublisherPlugin` touched by the mouse and
topic handlers.

* `is_mouse_down_`, `arrow_angle_`, `arrow_tail_position_` are the
  members of the same names.
* `pushButtonPose_checked` models `ui_.pushButtonPose->isChecked()`
  (the arm toggle).
* `topic_text` models `ui_.topic->text()`.
* `pose_pub_` models the `ros::Publisher`: `some t` once it has been
  advertised on a (non-empty) topic `t`, `none` while it is still the
  default-constructed, unbound publisher.
* `target_frame_` — Modelled from the spec: the `MapvizPlugin`
  base-class member `target_frame_` is declared outside `src/`; per the
  spec (§3, Published Pose) it holds `Output Selection.frame`, the
  currently selected output frame. -/
structure PosePublisherPlugin where
  is_mouse_down_ : Bool
  pushButtonPose_checked : Bool
  arrow_angle_ : ℝ
  arrow_tail_position_ : QPointF
  target_frame_ : String
  topic_text : String
  pose_pub_ : Option String

/-- `PosePublisherPlugin::handleMousePress`.  `canvas` models
`map_canvas_->MapGlCoordToFixedFrame`, the host canvas's pixel-to-fixed-
frame transform; `event` carries the button and `localPos()`.  Returns
the new state and whether the event was consumed. -/
def PosePublisherPlugin.handleMousePress (canvas : QPointF → QPointF)
    (button : MouseButton) (localPos : QPointF)
    (s : PosePublisherPlugin) : PosePublisherPlugin × Bool :=
  let pose_checked := s.pushButtonPose_checked
  if !pose_checked then
    (s, false)
  else if button = MouseButton.left then
    ({ s with
        is_mouse_down_ := true
        arrow_angle_ := 0
        arrow_tail_position_ := canvas localPos }, true)
  else
    (s, false)

/-- `PosePublisherPlugin::handleMouseMove`: while the mouse is down,
recompute `arrow_angle_ = atan2(head.y - tail.y, head.x - tail.x)`;
always returns false (event not consumed). -/
noncomputable def PosePublisherPlugin.handleMouseMove (canvas : QPointF → QPointF)
    (localPos : QPointF) (s : PosePublisherPlugin) :
    PosePublisherPlugin × Bool :=
  if s.is_mouse_down_ then
    let head_pos := canvas localPos
    ({ s with
        arrow_angle_ := atan2 (head_pos.y - s.arrow_tail_position_.y)
          (head_pos.x - s.arrow_tail_position_.x) }, false)
  else
    (s, false)

/-- Result of `PosePublisherPlugin::handleMouseRelease`: the new plugin
state, the handler's boolean return (event consumed), and the message
handed to `pose_pub_.publish`, if any. -/
structure ReleaseResult where
  state : PosePublisherPlugin
  consumed : Bool
  published : Option geometry_msgs.PoseWithCovarianceStamped

/-- `PosePublisherPlugin::handleMouseRelease`.  `now` models
`ros::Time::now()`, the publish-time wall clock. -/
noncomputable def PosePublisherPlugin.handleMouseRelease (now : ℝ)
    (s : PosePublisherPlugin) : ReleaseResult :=
  if !s.is_mouse_down_ then
    { state := s, consumed := false, published := none }
  else
    let s1 : PosePublisherPlugin := { s with is_mouse_down_ := false }
    let pose_checked := s1.pushButtonPose_checked
    if !pose_checked then
      { state := s1, consumed := false, published := none }
    else
      let quat := createQuaternionFromYaw s1.arrow_angle_
      let pose : geometry_msgs.PoseWithCovarianceStamped :=
        { header := { frame_id := s1.target_frame_, stamp := now }
          pose :=
            { pose :=
                { position :=
                    { x := s1.arrow_tail_position_.x
                      y := s1.arrow_tail_position_.y
                      z := 0 }
                  orientation := quat }
              covariance := List.replicate 36 0 } }
      { state := { s1 with pushButtonPose_checked := false }
        consumed := true
        published := some pose }

/-- `ros::Publisher::publish` as a delivery function: an unbound
(default-constructed) publisher silently drops the message; a bound one
delivers it to its advertised topic. -/
def publishTo (pub : Option String)
    (msg : geometry_msgs.PoseWithCovarianceStamped) :
    List (String × geometry_msgs.PoseWithCovarianceStamped) :=
  match pub with
  | some t => [(t, msg)]
  | none => []

/-- The messages a mouse-release event delivers to the messaging bus:
the message `handleMouseRelease` hands to `pose_pub_.publish`, routed
through the publisher binding held at release time. -/
noncomputable def releaseDelivered (now : ℝ) (s : PosePublisherPlugin) :
    List (String × geometry_msgs.PoseWithCovarianceStamped) :=
  match (s.handleMouseRelease now).published with
  | some msg => publishTo s.pose_pub_ msg
  | none => []

/-- `PosePublisherPlugin::topicChanged`: advertise on the new topic only
when it is non-empty; an empty topic leaves the publisher untouched. -/
def PosePublisherPlugin.topicChanged (topic : String)
    (s : PosePublisherPlugin) : PosePublisherPlugin :=
  if !topic.isEmpty then
    { s with pose_pub_ := some topic }
  else
    s

/-- A user edit of the topic line: Qt updates the line-edit text, then
fires `textEdited`, which is connected to `topicChanged`. -/
def editTopic (topic : String) (s : PosePublisherPlugin) :
    PosePublisherPlugin :=
  PosePublisherPlugin.topicChanged topic { s with topic_text := topic }

/-- Model of the Qt `QComboBox` collaborator (`ui_.outputframe`): the
displayed item list and the current index (`-1` when no item is
current).  Qt makes the first item inserted into an empty box current;
`clear` resets the box to empty with no current item. -/
structure QComboBox where
  items : List String
  currentIndex : Int
deriving DecidableEq

/-- `QComboBox::count`. -/
def QComboBox.count (cb : QComboBox) : Int :=
  cb.items.length

/-- `QComboBox::itemText(i)`: the text at index `i`, empty for an
out-of-range index. -/
def QComboBox.itemText (cb : QComboBox) (i : Nat) : String :=
  cb.items.getD i ""

/-- `QComboBox::currentText()`: the text of the current item, empty when
no item is current. -/
def QComboBox.currentText (cb : QComboBox) : String :=
  if 0 ≤ cb.currentIndex ∧ cb.currentIndex < (cb.items.length : Int) then
    cb.items.getD cb.currentIndex.toNat ""
  else
    ""

/-- `QComboBox::clear()`. -/
def QComboBox.clear (cb : QComboBox) : QComboBox :=
  { items := [], currentIndex := -1 }

/-- `QComboBox::addItem(t)`: append `t`; if the box was empty the new
item becomes current (Qt behaviour on first insertion). -/
def QComboBox.addItem (cb : QComboBox) (t : String) : QComboBox :=
  { items := cb.items ++ [t]
    currentIndex := if cb.items.isEmpty then 0 else cb.currentIndex }

/-- First index of `t` in `l`, or `-1` when absent (the search behind
`QComboBox::findText`). -/
def findTextIdx (t : String) : List String → Int
  | [] => -1
  | s :: rest =>
    if s = t then 0
    else
      let r := findTextIdx t rest
      if r < 0 then -1 else r + 1

/-- `QComboBox::findText(t)` with the default exact-match flags. -/
def QComboBox.findText (cb : QComboBox) (t : String) : Int :=
  findTextIdx t cb.items

/-- `QComboBox::setCurrentIndex(i)`.  Every call site below passes an
in-range index freshly returned by `findText` after the sought item was
ensured present, so the plain assignment is faithful. -/
def QComboBox.setCurrentIndex (cb : QComboBox) (i : Int) : QComboBox :=
  { cb with currentIndex := i }

/-- `swri_transform_util::_wgs84_frame`. -/
def _wgs84_frame : String := "wgs84"

/-- The rebuild branch of `PosePublisherPlugin::updateFrames` (source
lines 370-402): remember the current text, clear the box, add every
candidate frame in order, then try to restore the previous selection,
appending it first when it is not among the candidates. -/
def rebuildFrames (frames : List String) (cb : QComboBox) : QComboBox :=
  let current_output := cb.currentText
  let cb1 := QComboBox.clear cb
  let cb2 := frames.foldl QComboBox.addItem cb1
  if current_output ≠ "" then
    let index := cb2.findText current_output
    let cb3 := if index < 0 then cb2.addItem current_output else cb2
    let index2 := cb3.findText current_output
    cb3.setCurrentIndex index2
  else
    cb2

/-- The candidate frame list `updateFrames` works from: the frames the
transform collaborator knows, plus the WGS84 well-known name when the
local-xy-to-WGS84 transform is supported (source lines 325-343). -/
def candidate_frames (tf_frames : List String) (supports_wgs84 : Bool) :
    List String :=
  if supports_wgs84 then tf_frames ++ [_wgs84_frame] else tf_frames

/-- `PosePublisherPlugin::updateFrames`.  `tf_frames` models
`tf_->getFrameStrings` and `supports_wgs84` the
`tf_manager_->SupportsTransform(local_xy, wgs84)` query; both are host
collaborators, so they enter as inputs.  The source computes `changed`
by comparing the candidate list element-by-element against the displayed
items, but its `return;` sits on its own line after
`if (!changed) PrintInfo(...);` — outside the conditional — so whenever
the counts match the function returns without rebuilding, regardless of
`changed`.  The embedding reproduces that control flow faithfully. -/
def updateFrames (tf_frames : List String) (supports_wgs84 : Bool)
    (cb : QComboBox) : QComboBox :=
  let frames := candidate_frames tf_frames supports_wgs84
  if 0 ≤ cb.count ∧ cb.count = (frames.length : Int) then
    let changed := (List.range frames.length).any
      (fun i => frames.getD i "" ≠ cb.itemText i)
    cb
  else
    rebuildFrames frames cb

/-- A concrete plugin state used to witness the mouse-handler theorems:
armed, mid-drag at tail (1, 2), angle 0, publishing frame "map". -/
def sampleState : PosePublisherPlugin :=
  { is_mouse_down_ := true
    pushButtonPose_checked := true
    arrow_angle_ := 0
    arrow_tail_position_ := { x := 1, y := 2 }
    target_frame_ := "map"
    topic_text := "/pose_out"
    pose_pub_ := some "/pose_out" }

/-- A concrete canvas transform (the identity pixel-to-fixed-frame map)
used to witness the press/move theorems. -/
def sampleCanvas : QPointF → QPointF := fun p => p

/-- C1: evidence of the code bug.  With `["a"]` displayed (index 0
current) and `["b"]` freshly queried, the counts match but the element
at index 0 differs, yet `updateFrames` leaves the box untouched: the
source's early `return;` sits outside the `if (!changed)` body, so the
element-by-element comparison never gates the rebuild.  The claim (and
the spec's intent) requires a rebuild here. -/
theorem updateFrames_skips_rebuild_on_element_mismatch :
    updateFrames ["b"] false { items := ["a"], currentIndex := 0 } =
      { items := ["a"], currentIndex := 0 } ∧
    (QComboBox.mk ["a"] 0).itemText 0 ≠ "b" := by
  constructor
  · rfl
  · decide

/-- C2: a mouse release processed while a drag session is active
(`is_mouse_down_`) and the arm toggle is checked hands `publish` a pose
whose header frame id is the selected output frame (`target_frame_`),
whose stamp is the publish-time clock `now`, whose position is the drag
tail extended with z = 0, and whose orientation is the quaternion
`(0, 0, sin(angle/2), cos(angle/2))` — a rotation about the vertical
axis — which is a unit quaternion. -/
theorem handleMouseRelease_publishes_selected_frame_pose
    (now : ℝ) (s : PosePublisherPlugin)
    (h1 : s.is_mouse_down_ = true) (h2 : s.pushButtonPose_checked = true) :
    (s.handleMouseRelease now).published =
      some { header := { frame_id := s.target_frame_, stamp := now }
             pose :=
               { pose :=
                   { position :=
                       { x := s.arrow_tail_position_.x
                         y := s.arrow_tail_position_.y
                         z := 0 }
                     orientation :=
                       { x := 0, y := 0
                         z := Real.sin (s.arrow_angle_ / 2)
                         w := Real.cos (s.arrow_angle_ / 2) } }
                 covariance := List.replicate 36 0 } } ∧
    Real.sin (s.arrow_angle_ / 2) ^ 2 + Real.cos (s.arrow_angle_ / 2) ^ 2
      = 1 := by
  constructor
  · simp [PosePublisherPlugin.handleMouseRelease, h1, h2,
      createQuaternionFromYaw]
  · exact Real.sin_sq_add_cos_sq _

/-- C2 witness: the theorem applied to the concrete armed, mid-drag
state `sampleState` at publish time 5. -/
theorem handleMouseRelease_publishes_selected_frame_pose_witness :
    sampleState.is_mouse_down_ = true ∧
    sampleState.pushButtonPose_checked = true ∧
    ((sampleState.handleMouseRelease 5).published =
      some { header := { frame_id := sampleState.target_frame_, stamp := 5 }
             pose :=
               { pose :=
                   { position :=
                       { x := sampleState.arrow_tail_position_.x
                         y := sampleState.arrow_tail_position_.y
                         z := 0 }
                     orientation :=
                       { x := 0, y := 0
                         z := Real.sin (sampleState.arrow_angle_ / 2)
                         w := Real.cos (sampleState.arrow_angle_ / 2) } }
                 covariance := List.replicate 36 0 } } ∧
     Real.sin (sampleState.arrow_angle_ / 2) ^ 2 +
       Real.cos (sampleState.arrow_angle_ / 2) ^ 2 = 1) :=
  ⟨rfl, rfl,
    handleMouseRelease_publishes_selected_frame_pose 5 sampleState rfl rfl⟩

/-- C4: a mouse release with no active drag session (`is_mouse_down_`
false) is a no-op: the state is returned unchanged, no message is handed
to publish or delivered, and the event is reported unconsumed. -/
theorem handleMouseRelease_no_press_noop (now : ℝ)
    (s : PosePublisherPlugin) (h : s.is_mouse_down_ = false) :
    s.handleMouseRelease now =
      { state := s, consumed := false, published := none } ∧
    releaseDelivered now s = [] := by
  have hrel : s.handleMouseRelease now =
      { state := s, consumed := false, published := none } := by
    simp [PosePublisherPlugin.handleMouseRelease, h]
  exact ⟨hrel, by simp [releaseDelivered, hrel]⟩

/-- C4 witness: the theorem applied to the idle (not-mid-drag) variant
of `sampleState` at time 5. -/
theorem handleMouseRelease_no_press_noop_witness :
    ({ sampleState with is_mouse_down_ := false
        : PosePublisherPlugin }).is_mouse_down_ = false ∧
    (({ sampleState with is_mouse_down_ := false
        : PosePublisherPlugin }).handleMouseRelease 5 =
      { state := { sampleState with is_mouse_down_ := false }
        consumed := false, published := none } ∧
     releaseDelivered 5 { sampleState with is_mouse_down_ := false } = []) :=
  ⟨rfl, handleMouseRelease_no_press_noop 5
    { sampleState with is_mouse_down_ := false } rfl⟩

/-- C5: a mouse release processed while a drag session is active and the
arm toggle is checked always leaves the toggle unchecked (disarms);
the state `s` is arbitrary, so this holds whatever the topic text or
publisher binding — including an empty topic. -/
theorem handleMouseRelease_disarms (now : ℝ) (s : PosePublisherPlugin)
    (h1 : s.is_mouse_down_ = true) (h2 : s.pushButtonPose_checked = true) :
    (s.handleMouseRelease now).state.pushButtonPose_checked = false := by
  simp [PosePublisherPlugin.handleMouseRelease, h1, h2]

/-- C5 witness: the theorem applied at an armed, mid-drag state whose
topic text is empty and whose publisher was never bound. -/
theorem handleMouseRelease_disarms_witness :
    ({ sampleState with topic_text := "", pose_pub_ := none
        : PosePublisherPlugin }).is_mouse_down_ = true ∧
    ({ sampleState with topic_text := "", pose_pub_ := none
        : PosePublisherPlugin }).pushButtonPose_checked = true ∧
    (PosePublisherPlugin.handleMouseRelease 5
      { sampleState with topic_text := "", pose_pub_ := none
        }).state.pushButtonPose_checked = false :=
  ⟨rfl, rfl, handleMouseRelease_disarms 5
    { sampleState with topic_text := "", pose_pub_ := none } rfl rfl⟩

/-- C6: for every press-then-release sequence with no intervening move,
the published heading angle is 0: the press handler sets
`arrow_angle_ = 0`, and the release publishes the orientation
`createQuaternionFromYaw 0`, which is the identity quaternion
(0, 0, 0, 1). -/
theorem press_release_publishes_zero_angle
    (canvas : QPointF → QPointF) (localPos : QPointF) (now : ℝ)
    (s : PosePublisherPlugin) (h : s.pushButtonPose_checked = true) :
    (s.handleMousePress canvas MouseButton.left localPos).1.arrow_angle_
      = 0 ∧
    (PosePublisherPlugin.handleMouseRelease now
        (s.handleMousePress canvas MouseButton.left localPos).1).published =
      some { header := { frame_id := s.target_frame_, stamp := now }
             pose :=
               { pose :=
                   { position :=
                       { x := (canvas localPos).x
                         y := (canvas localPos).y
                         z := 0 }
                     orientation := createQuaternionFromYaw 0 }
                 covariance := List.replicate 36 0 } } ∧
    createQuaternionFromYaw 0 = { x := 0, y := 0, z := 0, w := 1 } := by
  refine ⟨?_, ?_, ?_⟩
  · simp [PosePublisherPlugin.handleMousePress, h]
  · simp [PosePublisherPlugin.handleMousePress,
      PosePublisherPlugin.handleMouseRelease, h]
  · simp [createQuaternionFromYaw]

/-- C6 witness: the theorem applied to the identity canvas, a press at
(3, 4) and the armed idle variant of `sampleState`, at time 5. -/
theorem press_release_publishes_zero_angle_witness :
    ({ sampleState with is_mouse_down_ := false
        : PosePublisherPlugin }).pushButtonPose_checked = true ∧
    (((PosePublisherPlugin.handleMousePress sampleCanvas MouseButton.left
          { x := 3, y := 4 }
          { sampleState with is_mouse_down_ := false }).1.arrow_angle_
        = 0) ∧
     (PosePublisherPlugin.handleMouseRelease 5
        (PosePublisherPlugin.handleMousePress sampleCanvas MouseButton.left
          { x := 3, y := 4 }
          { sampleState with is_mouse_down_ := false }).1).published =
        some { header :=
                 { frame_id :=
                     ({ sampleState with is_mouse_down_ := false
                         : PosePublisherPlugin }).target_frame_
                   stamp := 5 }
               pose :=
                 { pose :=
                     { position :=
                         { x := (sampleCanvas { x := 3, y := 4 }).x
                           y := (sampleCanvas { x := 3, y := 4 }).y
                           z := 0 }
                       orientation := createQuaternionFromYaw 0 }
                   covariance := List.replicate 36 0 } } ∧
     createQuaternionFromYaw 0 = { x := 0, y := 0, z := 0, w := 1 }) :=
  ⟨rfl, press_release_publishes_zero_angle sampleCanvas
    { x := 3, y := 4 } 5 { sampleState with is_mouse_down_ := false } rfl⟩

/-- C10: after any mouse release is processed the drag session is
inactive (`is_mouse_down_` is false); and a release arriving mid-drag
after the arm toggle was unchecked clears only the drag flag, publishes
and delivers nothing, and reports the event unconsumed. -/
theorem handleMouseRelease_clears_mouse_down (now : ℝ)
    (s : PosePublisherPlugin) :
    (s.handleMouseRelease now).state.is_mouse_down_ = false ∧
    (s.is_mouse_down_ = true → s.pushButtonPose_checked = false →
      s.handleMouseRelease now =
        { state := { s with is_mouse_down_ := false }
          consumed := false, published := none } ∧
      releaseDelivered now s = []) := by
  constructor
  · by_cases hd : s.is_mouse_down_ <;>
      by_cases hc : s.pushButtonPose_checked <;>
        simp [PosePublisherPlugin.handleMouseRelease, hd, hc]
  · intro hd hc
    have hrel : s.handleMouseRelease now =
        { state := { s with is_mouse_down_ := false }
          consumed := false, published := none } := by
      simp [PosePublisherPlugin.handleMouseRelease, hd, hc]
    exact ⟨hrel, by simp [releaseDelivered, hrel]⟩

/-- C10 witness: the theorem applied at time 5 to the mid-drag state
whose arm toggle was unchecked mid-drag, with the inner implications
discharged at that input. -/
theorem handleMouseRelease_clears_mouse_down_witness :
    (PosePublisherPlugin.handleMouseRelease 5
      { sampleState with pushButtonPose_checked := false
        }).state.is_mouse_down_ = false ∧
    (PosePublisherPlugin.handleMouseRelease 5
        { sampleState with pushButtonPose_checked := false } =
      { state :=
          { sampleState with
              pushButtonPose_checked := false
              is_mouse_down_ := false }
        consumed := false, published := none } ∧
     releaseDelivered 5
       { sampleState with pushButtonPose_checked := false } = []) :=
  ⟨(handleMouseRelease_clears_mouse_down 5
      { sampleState with pushButtonPose_checked := false }).1,
   (handleMouseRelease_clears_mouse_down 5
      { sampleState with pushButtonPose_checked := false }).2 rfl rfl⟩

/-- C9 counterexample: edit the topic to "/a" (binding the publisher),
then edit it to the empty string.  The topic text is now empty, yet a
release while armed and mid-drag still delivers the pose — to "/a" —
because `topicChanged` only re-advertises on non-empty text and never
unbinds the previous publisher.  This refutes the claim that a release
with empty topic text hands its pose to no destination after such an
edit sequence. -/
theorem empty_topic_after_bind_still_delivers :
    (editTopic "" (editTopic "/a"
        { sampleState with pose_pub_ := none })).topic_text = "" ∧
    (editTopic "" (editTopic "/a"
        { sampleState with pose_pub_ := none })).pose_pub_ = some "/a" ∧
    releaseDelivered 5 (editTopic "" (editTopic "/a"
        { sampleState with pose_pub_ := none })) ≠ [] := by
  have hst : editTopic "" (editTopic "/a"
      { sampleState with pose_pub_ := none }) =
      { sampleState with topic_text := "", pose_pub_ := some "/a" } := by
    simp [editTopic, PosePublisherPlugin.topicChanged,
      show ("" : String).isEmpty = true from by decide,
      show ("/a" : String).isEmpty = false from by decide]
  refine ⟨by rw [hst], by rw [hst], ?_⟩
  rw [hst]
  simp [releaseDelivered, PosePublisherPlugin.handleMouseRelease,
    publishTo, sampleState]

/-- A release delivers nothing whenever the publisher was never bound
(`pose_pub_ = none`), whatever the rest of the state. -/
theorem releaseDelivered_of_unbound (now : ℝ) (s : PosePublisherPlugin)
    (h : s.pose_pub_ = none) : releaseDelivered now s = [] := by
  unfold releaseDelivered
  cases hp : (s.handleMouseRelease now).published <;>
    simp [publishTo, h]

/-- C9 (amended): as long as every prior topic edit was empty, the
publisher stays unbound and release events deliver their pose to no
destination.  (The original claim also covered editing a previously
non-empty topic to empty; `empty_topic_after_bind_still_delivers`
shows the old binding persists in that case.) -/
theorem empty_topic_edits_publish_noop (now : ℝ) (ts : List String)
    (s : PosePublisherPlugin) (hp : s.pose_pub_ = none)
    (hts : ∀ t ∈ ts, t = "") :
    (ts.foldl (fun a t => editTopic t a) s).pose_pub_ = none ∧
    releaseDelivered now (ts.foldl (fun a t => editTopic t a) s) = [] := by
  have hfold : ∀ (l : List String) (a : PosePublisherPlugin),
      (∀ t ∈ l, t = "") → a.pose_pub_ = none →
      (l.foldl (fun a t => editTopic t a) a).pose_pub_ = none := by
    intro l
    induction l with
    | nil => intro a _ ha; exact ha
    | cons t rest ih =>
      intro a hl ha
      have ht : t = "" := hl t (List.mem_cons_self t rest)
      have hstep : (editTopic t a).pose_pub_ = none := by
        subst ht
        simp [editTopic, PosePublisherPlugin.topicChanged, ha,
          show ("" : String).isEmpty = true from by decide]
      exact ih (editTopic t a)
        (fun x hx => hl x (List.mem_cons_of_mem t hx)) hstep
  have hnone := hfold ts s hts hp
  exact ⟨hnone, releaseDelivered_of_unbound now _ hnone⟩

/-- C9 (amended) witness: the theorem applied at time 5 to the
never-bound variant of `sampleState` after two empty topic edits. -/
theorem empty_topic_edits_publish_noop_witness :
    ({ sampleState with pose_pub_ := none
        : PosePublisherPlugin }).pose_pub_ = none ∧
    ((List.foldl (fun a t => editTopic t a)
        { sampleState with pose_pub_ := none } ["", ""]).pose_pub_ = none ∧
     releaseDelivered 5 (List.foldl (fun a t => editTopic t a)
        { sampleState with pose_pub_ := none } ["", ""]) = []) :=
  ⟨rfl, empty_topic_edits_publish_noop 5 ["", ""]
    { sampleState with pose_pub_ := none } rfl (by decide)⟩

/-- C3: a mouse move processed while a drag session is active recomputes
the heading as the two-argument arctangent of the head-minus-tail delta;
and `atan2` itself has the correct sign and quadrant everywhere: on any
nonzero delta its cosine and sine reproduce the normalised direction and
the value lies in (-π, π], a move straight up gives π/2, straight down
-π/2, straight right 0, straight left π, and the angle is nonnegative
exactly when the vertical delta is. -/
theorem handleMouseMove_angle_atan2 (canvas : QPointF → QPointF)
    (localPos : QPointF) (s : PosePublisherPlugin)
    (h : s.is_mouse_down_ = true) :
    ((s.handleMouseMove canvas localPos).1.arrow_angle_ =
      atan2 ((canvas localPos).y - s.arrow_tail_position_.y)
        ((canvas localPos).x - s.arrow_tail_position_.x)) ∧
    (∀ x y : ℝ, ¬(x = 0 ∧ y = 0) →
      Real.cos (atan2 y x) = x / Real.sqrt (x ^ 2 + y ^ 2) ∧
      Real.sin (atan2 y x) = y / Real.sqrt (x ^ 2 + y ^ 2) ∧
      -Real.pi < atan2 y x ∧ atan2 y x ≤ Real.pi) ∧
    (∀ y : ℝ, 0 < y → atan2 y 0 = Real.pi / 2) ∧
    (∀ y : ℝ, y < 0 → atan2 y 0 = -(Real.pi / 2)) ∧
    (∀ x : ℝ, 0 < x → atan2 0 x = 0) ∧
    (∀ x : ℝ, x < 0 → atan2 0 x = Real.pi) ∧
    (∀ x y : ℝ, (0 ≤ atan2 y x ↔ 0 ≤ y) ∧ (atan2 y x < 0 ↔ y < 0)) := by
  refine ⟨?_, ?_, ?_, ?_, ?_, ?_, ?_⟩
  · simp [PosePublisherPlugin.handleMouseMove, h]
  · intro x y hxy
    have hz : (⟨x, y⟩ : ℂ) ≠ 0 := by
      intro hc
      exact hxy ⟨congrArg Complex.re hc, congrArg Complex.im hc⟩
    have habs : Complex.abs ⟨x, y⟩ = Real.sqrt (x ^ 2 + y ^ 2) := by
      rw [Complex.abs_apply, Complex.normSq_mk]
      ring_nf
    refine ⟨?_, ?_, Complex.neg_pi_lt_arg _, Complex.arg_le_pi _⟩
    · rw [atan2, Complex.cos_arg hz, habs]
    · rw [atan2, Complex.sin_arg, habs]
  · intro y hy
    exact Complex.arg_eq_pi_div_two_iff.mpr ⟨rfl, hy⟩
  · intro y hy
    exact Complex.arg_eq_neg_pi_div_two_iff.mpr ⟨rfl, hy⟩
  · intro x hx
    exact Complex.arg_eq_zero_iff.mpr ⟨le_of_lt hx, rfl⟩
  · intro x hx
    exact Complex.arg_eq_pi_iff.mpr ⟨hx, rfl⟩
  · intro x y
    exact ⟨Complex.arg_nonneg_iff, Complex.arg_neg_iff⟩

/-- C3 witness: the theorem applied to the identity canvas, a move to
(0, 5) from tail (0, 0) in the mid-drag state, with the axis-aligned
and sign facts instantiated at the resulting delta. -/
theorem handleMouseMove_angle_atan2_witness :
    ({ sampleState with arrow_tail_position_ := { x := 0, y := 0 }
        : PosePublisherPlugin }).is_mouse_down_ = true ∧
    (PosePublisherPlugin.handleMouseMove sampleCanvas { x := 0, y := 5 }
        { sampleState with arrow_tail_position_ := { x := 0, y := 0 }
          }).1.arrow_angle_ =
      atan2 ((sampleCanvas { x := 0, y := 5 }).y - 0)
        ((sampleCanvas { x := 0, y := 5 }).x - 0) ∧
    atan2 5 0 = Real.pi / 2 ∧
    (0 ≤ atan2 5 0 ↔ (0:ℝ) ≤ 5) := by
  have hall := handleMouseMove_angle_atan2 sampleCanvas { x := 0, y := 5 }
    { sampleState with arrow_tail_position_ := { x := 0, y := 0 } } rfl
  exact ⟨rfl, hall.1, hall.2.2.1 5 (by norm_num), (hall.2.2.2.2.2.2 0 5).1⟩

/-- Folding `addItem` over a list appends it to the displayed items. -/
theorem foldl_addItem_items (l : List String) (cb : QComboBox) :
    (l.foldl QComboBox.addItem cb).items = cb.items ++ l := by
  induction l generalizing cb with
  | nil => simp
  | cons a as ih =>
    rw [List.foldl_cons, ih]
    simp [QComboBox.addItem]

/-- Folding `addItem` over a non-empty box never moves the current
index. -/
theorem foldl_addItem_currentIndex (l : List String) (cb : QComboBox)
    (h : cb.items ≠ []) :
    (l.foldl QComboBox.addItem cb).currentIndex = cb.currentIndex := by
  induction l generalizing cb with
  | nil => rfl
  | cons a as ih =>
    rw [List.foldl_cons]
    have h2 : (cb.addItem a).items ≠ [] := by simp [QComboBox.addItem]
    rw [ih _ h2]
    simp [QComboBox.addItem, h]

/-- Filling a cleared box with `addItem` yields exactly the list, with
the first item current when there is one. -/
theorem foldl_addItem_clear (l : List String) :
    l.foldl QComboBox.addItem { items := [], currentIndex := -1 } =
      { items := l, currentIndex := if l.isEmpty then -1 else 0 } := by
  cases l with
  | nil => rfl
  | cons a as =>
    rw [List.foldl_cons]
    have h1 : QComboBox.addItem { items := [], currentIndex := -1 } a =
        { items := [a], currentIndex := 0 } := rfl
    rw [h1]
    have h2 := foldl_addItem_items as { items := [a], currentIndex := 0 }
    have h3 := foldl_addItem_currentIndex as
      { items := [a], currentIndex := 0 } (by simp)
    calc as.foldl QComboBox.addItem { items := [a], currentIndex := 0 }
        = { items := (as.foldl QComboBox.addItem
              { items := [a], currentIndex := 0 }).items
            currentIndex := (as.foldl QComboBox.addItem
              { items := [a], currentIndex := 0 }).currentIndex } := rfl
      _ = { items := a :: as
            currentIndex := if (a :: as).isEmpty then -1 else 0 } := by
          rw [h2, h3]
          simp

/-- A string absent from the list is not found. -/
theorem findTextIdx_of_not_mem {t : String} {l : List String}
    (h : t ∉ l) : findTextIdx t l = -1 := by
  induction l with
  | nil => rfl
  | cons a as ih =>
    have ha : ¬(a = t) := fun hat => h (hat ▸ List.mem_cons_self a as)
    have ih2 := ih (fun hm => h (List.mem_cons_of_mem a hm))
    simp [findTextIdx, ha, ih2]

/-- A string present in the list is found at a valid first index whose
entry is that string. -/
theorem findTextIdx_mem {t : String} {l : List String} (h : t ∈ l) :
    0 ≤ findTextIdx t l ∧ findTextIdx t l < (l.length : Int) ∧
    l.getD (findTextIdx t l).toNat "" = t := by
  induction l with
  | nil => cases h
  | cons a as ih =>
    by_cases ha : a = t
    · have h0 : findTextIdx t (a :: as) = 0 := by simp [findTextIdx, ha]
      rw [h0]
      refine ⟨le_refl _, by simp [List.length_cons], ?_⟩
      simpa [List.getD_cons_zero] using ha
    · have hmem : t ∈ as := by
        rcases List.mem_cons.mp h with h1 | h2
        · exact absurd h1.symm ha
        · exact h2
      obtain ⟨h1, h2, h3⟩ := ih hmem
      have hlt : ¬ findTextIdx t as < 0 := not_lt.mpr h1
      have hstep : findTextIdx t (a :: as) = findTextIdx t as + 1 := by
        simp [findTextIdx, ha, hlt]
      rw [hstep]
      refine ⟨by omega, by simp only [List.length_cons]; push_cast; omega, ?_⟩
      have htn : (findTextIdx t as + 1).toNat =
          (findTextIdx t as).toNat + 1 := by omega
      rw [htn, List.getD_cons_succ]
      exact h3

/-- Appending a fresh string to a list that lacks it makes it findable
exactly at the old length. -/
theorem findTextIdx_append_self {t : String} {l : List String}
    (h : t ∉ l) : findTextIdx t (l ++ [t]) = (l.length : Int) := by
  induction l with
  | nil => simp [findTextIdx]
  | cons a as ih =>
    have ha : ¬(a = t) := fun hat => h (hat ▸ List.mem_cons_self a as)
    have ih2 := ih (fun hm => h (List.mem_cons_of_mem a hm))
    have hnl : ¬ ((as.length : Int) < 0) := by omega
    have hstep : findTextIdx t ((a :: as) ++ [t]) =
        findTextIdx t (as ++ [t]) + 1 := by
      rw [List.cons_append]
      simp [findTextIdx, ha, ih2, hnl]
    rw [hstep, ih2]
    simp [List.length_cons]

/-- The current text of a box whose index is in range is the entry at
that index. -/
theorem currentText_mk (l : List String) (i : Int) (h1 : 0 ≤ i)
    (h2 : i < (l.length : Int)) :
    (QComboBox.mk l i).currentText = l.getD i.toNat "" := by
  unfold QComboBox.currentText
  rw [if_pos ⟨h1, h2⟩]

/-- When the displayed count equals the candidate count, `updateFrames`
returns the box untouched (the source's early return — which, due to the
misplaced `return;`, fires regardless of the element comparison). -/
theorem updateFrames_return (tf_frames : List String) (supports : Bool)
    (cb : QComboBox)
    (h : cb.items.length = (candidate_frames tf_frames supports).length) :
    updateFrames tf_frames supports cb = cb := by
  have hc : 0 ≤ cb.count ∧
      cb.count = ((candidate_frames tf_frames supports).length : Int) := by
    constructor
    · simp [QComboBox.count]
    · simp [QComboBox.count, h]
  simp only [updateFrames]
  rw [if_pos hc]

/-- When the counts differ, `updateFrames` takes the rebuild branch. -/
theorem updateFrames_rebuild (tf_frames : List String) (supports : Bool)
    (cb : QComboBox)
    (h : cb.items.length ≠ (candidate_frames tf_frames supports).length) :
    updateFrames tf_frames supports cb =
      rebuildFrames (candidate_frames tf_frames supports) cb := by
  have hc : ¬(0 ≤ cb.count ∧
      cb.count = ((candidate_frames tf_frames supports).length : Int)) := by
    rintro ⟨-, h2⟩
    exact h (by exact_mod_cast (QComboBox.count.eq_def cb ▸ h2))
  simp only [updateFrames]
  rw [if_neg hc]

/-- Closed form of the rebuild branch: keep the candidates as the new
items; restore the previous selection in place when it is among them,
append-and-select it when it is not, and leave the default first-item
selection when there was none. -/
theorem rebuildFrames_eq (frames : List String) (cb : QComboBox) :
    rebuildFrames frames cb =
      if cb.currentText = "" then
        { items := frames, currentIndex := if frames.isEmpty then -1 else 0 }
      else if cb.currentText ∈ frames then
        { items := frames
          currentIndex := findTextIdx cb.currentText frames }
      else
        { items := frames ++ [cb.currentText]
          currentIndex := (frames.length : Int) } := by
  have hclear : QComboBox.clear cb = { items := [], currentIndex := -1 } :=
    rfl
  simp only [rebuildFrames]
  rw [hclear, foldl_addItem_clear]
  by_cases hc : cb.currentText = ""
  · rw [if_neg (by simpa using hc), if_pos hc]
  · rw [if_pos hc, if_neg hc]
    by_cases hm : cb.currentText ∈ frames
    · rw [if_pos hm]
      obtain ⟨h1, h2, h3⟩ := findTextIdx_mem hm
      have hfind : QComboBox.findText
          { items := frames, currentIndex := if frames.isEmpty then -1 else 0 }
          cb.currentText = findTextIdx cb.currentText frames := rfl
      rw [hfind, if_neg (not_lt.mpr h1), hfind]
      rfl
    · rw [if_neg hm]
      have hfind : QComboBox.findText
          { items := frames, currentIndex := if frames.isEmpty then -1 else 0 }
          cb.currentText = findTextIdx cb.currentText frames := rfl
      have hnone := findTextIdx_of_not_mem hm
      rw [hfind, hnone, if_pos (by omega : (-1 : Int) < 0)]
      have hadd : QComboBox.addItem
          { items := frames, currentIndex := if frames.isEmpty then -1 else 0 }
          cb.currentText =
          { items := frames ++ [cb.currentText]
            currentIndex := if frames.isEmpty then 0
              else if frames.isEmpty then -1 else 0 } := by
        simp [QComboBox.addItem]
      rw [hadd]
      have hfind2 : QComboBox.findText
          { items := frames ++ [cb.currentText]
            currentIndex := if frames.isEmpty then 0
              else if frames.isEmpty then -1 else 0 }
          cb.currentText = (frames.length : Int) := by
        unfold QComboBox.findText
        exact findTextIdx_append_self hm
      rw [hfind2]
      rfl

/-- The entry appended at the end of a list sits at the old length. -/
theorem getD_append_length (l : List String) (c : String) :
    (l ++ [c]).getD l.length "" = c := by
  rw [List.getD_append_right l [c] "" l.length (le_refl _)]
  simp

/-- After appending the previous selection behind the candidates and
selecting the appended slot, the current text is that selection. -/
theorem currentText_append_self (frames : List String) (c : String) :
    (QComboBox.mk (frames ++ [c]) (frames.length : Int)).currentText
      = c := by
  rw [currentText_mk _ _ (Int.natCast_nonneg _)
    (by rw [List.length_append, List.length_singleton]; push_cast; omega)]
  have ht : ((frames.length : Int)).toNat = frames.length := by simp
  rw [ht]
  exact getD_append_length _ _

/-- C7: frame-list refresh is idempotent under an unchanged candidate
list: running `updateFrames` a second time with the same collaborator
answers leaves the displayed list and the selected entry exactly as the
first run left them. -/
theorem updateFrames_idempotent (tf_frames : List String)
    (supports : Bool) (cb : QComboBox) :
    updateFrames tf_frames supports (updateFrames tf_frames supports cb)
      = updateFrames tf_frames supports cb := by
  by_cases h : cb.items.length = (candidate_frames tf_frames supports).length
  · rw [updateFrames_return _ _ _ h, updateFrames_return _ _ _ h]
  · rw [updateFrames_rebuild _ _ _ h, rebuildFrames_eq]
    by_cases hc : cb.currentText = ""
    · rw [if_pos hc]
      exact updateFrames_return _ _ _ (by simp)
    · rw [if_neg hc]
      by_cases hm : cb.currentText ∈ candidate_frames tf_frames supports
      · rw [if_pos hm]
        exact updateFrames_return _ _ _ (by simp)
      · rw [if_neg hm]
        have hlen : (candidate_frames tf_frames supports
              ++ [cb.currentText]).length ≠
            (candidate_frames tf_frames supports).length := by
          simp
        rw [updateFrames_rebuild _ _ _ hlen, rebuildFrames_eq,
          currentText_append_self, if_neg hc, if_neg hm]

/-- C8: on every rebuild (counts differ) with a non-empty previous
selection, the refresh keeps that selection: when it is absent from the
candidate list it is appended at the end and selected there; when it is
present it is re-selected at its first index.  Either way the selected
text afterwards is the previous selection. -/
theorem updateFrames_restores_selection (tf_frames : List String)
    (supports : Bool) (cb : QComboBox)
    (hreb : cb.items.length ≠ (candidate_frames tf_frames supports).length)
    (hc : cb.currentText ≠ "") :
    (cb.currentText ∉ candidate_frames tf_frames supports →
      updateFrames tf_frames supports cb =
        { items := candidate_frames tf_frames supports ++ [cb.currentText]
          currentIndex :=
            ((candidate_frames tf_frames supports).length : Int) } ∧
      (updateFrames tf_frames supports cb).currentText
        = cb.currentText) ∧
    (cb.currentText ∈ candidate_frames tf_frames supports →
      (updateFrames tf_frames supports cb).items
        = candidate_frames tf_frames supports ∧
      (updateFrames tf_frames supports cb).currentIndex
        = findTextIdx cb.currentText (candidate_frames tf_frames supports) ∧
      (updateFrames tf_frames supports cb).currentText
        = cb.currentText) := by
  rw [updateFrames_rebuild _ _ _ hreb, rebuildFrames_eq, if_neg hc]
  constructor
  · intro hm
    rw [if_neg hm]
    exact ⟨rfl, currentText_append_self _ _⟩
  · intro hm
    rw [if_pos hm]
    obtain ⟨h1, h2, h3⟩ := findTextIdx_mem hm
    refine ⟨rfl, rfl, ?_⟩
    rw [currentText_mk _ _ h1 h2]
    exact h3

/-- C8 witness: the theorem applied to the box showing only the stale
selection "old" with fresh candidates ["a", "b"]: the rebuild appends
"old" and selects it at index 2. -/
theorem updateFrames_restores_selection_witness :
    (QComboBox.mk ["old"] 0).items.length
      ≠ (candidate_frames ["a", "b"] false).length ∧
    (QComboBox.mk ["old"] 0).currentText ≠ "" ∧
    (updateFrames ["a", "b"] false (QComboBox.mk ["old"] 0) =
        QComboBox.mk ["a", "b", "old"] 2 ∧
     (updateFrames ["a", "b"] false (QComboBox.mk ["old"] 0)).currentText
        = "old") := by
  have h := (updateFrames_restores_selection ["a", "b"] false
    (QComboBox.mk ["old"] 0) (by decide) (by decide)).1 (by decide)
  exact ⟨by decide, by decide, h.1.trans (by decide), h.2.trans (by decide)⟩
